import Mathlib

/-!
Shallow embedding of the video-generation pipeline of
`src/src/app/api/generate-video/route.py` (the `POST /generate-video`
handler) and of the echo endpoint `src/api/python/index.py`.

External collaborators are modelled as oracles supplied to the embedded
handler: the generative model, the Daytona sandbox operations and the
`json.loads` parser.  `Except.error m` models the corresponding Python
call raising an exception whose `str` is `m`.  The handler's observable
behaviour is a list of events (remote calls and HTTP responses, in
order) together with an outcome: normal return, or an exception escaping
`do_POST` uncaught.
-/

/-- A JSON value as stored in a parsed request body, restricted to the
shapes the handlers actually read: strings and null. -/
inductive PyVal where
  | vstr (s : String)
  | vnull
deriving DecidableEq, Repr

/-- A parsed JSON object (the output of `json.loads`), as a key/value list. -/
abbrev PyDict := List (String × PyVal)

/-- Python `d.get(k)` on a dict: the first binding of `k`, if any. -/
def pyGet (d : PyDict) (k : String) : Option PyVal :=
  (d.find? (fun p => p.1 == k)).map (fun p => p.2)

/-- Python truthiness of `d.get(k)`: `None` and the empty string are falsy. -/
def truthyVal : Option PyVal → Bool
  | none => false
  | some PyVal.vnull => false
  | some (PyVal.vstr s) => !(s == "")

/-- Python truthiness of `os.environ.get(...)`: absent and `""` are falsy. -/
def truthyEnv : Option String → Bool
  | none => false
  | some s => !(s == "")

/-- The string interpolated for a parsed field inside an f-string. -/
def pyStrVal : Option PyVal → String
  | some (PyVal.vstr s) => s
  | _ => "None"

/-- Result of `sandbox.process.exec`: exit code and captured output. -/
structure ExecResult where
  exit_code : Int
  result : String
deriving DecidableEq, Repr

/-- Outcomes of the external calls one pipeline run can make.  Each field
gives the behaviour of one remote collaborator. -/
structure World where
  modelResp : String → Except String String
  createResult : Except String Unit
  installResult : Except String ExecResult
  uploadResult : Except String Unit
  renderResult : Except String ExecResult
  downloadResult : Except String (List Nat)
  removeResult : Except String Unit
  uuid : String

/-- The two credentials read from the process environment. -/
structure Env where
  daytonaApiKey : Option String
  geminiApiKey : Option String
deriving DecidableEq, Repr

/-- One inbound HTTP request: the Content-Length header (if present) and
the raw body available on the socket. -/
structure Request where
  contentLengthHeader : Option String
  body : String
deriving DecidableEq, Repr

/-- A value appearing in a serialized JSON response object. -/
inductive JOut where
  | jstr (s : String)
  | jnat (n : Nat)
deriving DecidableEq, Repr

/-- The body written with an HTTP response: a JSON object or raw bytes. -/
inductive RespBody where
  | jsonObj (fields : List (String × JOut))
  | bytes (b : List Nat)
deriving DecidableEq, Repr

/-- Observable events of one run, in order of occurrence. -/
inductive Event where
  | modelCall (prompt : String)
  | create (ok : Bool)
  | exec (cmd : String) (timeout : Nat)
  | upload (path : String) (content : String)
  | download (path : String)
  | remove
  | response (status : Nat) (contentType : String) (body : RespBody)
deriving DecidableEq, Repr

/-- How `do_POST` terminates: a normal return, or an exception escaping it. -/
inductive Outcome where
  | normal
  | uncaught (msg : String)
deriving DecidableEq, Repr

/-- The whitespace characters stripped by Python `str.strip()` / `int()`. -/
def isPySpace (c : Char) : Bool :=
  c == ' ' || c == '\t' || c == '\n' || c == '\r' || c == '\x0b' || c == '\x0c'

/-- Python `str.strip()` on a character list. -/
def pyStripList (l : List Char) : List Char :=
  ((l.dropWhile isPySpace).reverse.dropWhile isPySpace).reverse

/-- Python `s.strip()`. -/
def pyStrip (s : String) : String := ⟨pyStripList s.data⟩

/-- Digits of a base-10 Python int literal: underscores may appear singly
between digits. -/
def okDigits : List Char → Bool
  | [] => false
  | [c] => c.isDigit
  | c :: c2 :: rest =>
    c.isDigit &&
      (if c2 == '_' then
        (match rest with
         | [] => false
         | _ :: _ => okDigits rest)
       else okDigits (c2 :: rest))

/-- Numeric value of a digit list, ignoring separating underscores. -/
def digitsToNat (l : List Char) : Nat :=
  (l.filter (fun c => !(c == '_'))).foldl (fun a c => a * 10 + (c.toNat - 48)) 0

/-- Python `int(s)` for a string argument: whitespace is stripped, an
optional sign is allowed, and anything else raises `ValueError`. -/
def pyIntOfString (s : String) : Except String Int :=
  match pyStripList s.data with
  | '-' :: ds =>
    if okDigits ds then Except.ok (-(digitsToNat ds : Int))
    else Except.error ("invalid literal for int() with base 10: " ++ s)
  | '+' :: ds =>
    if okDigits ds then Except.ok (digitsToNat ds : Int)
    else Except.error ("invalid literal for int() with base 10: " ++ s)
  | ds =>
    if okDigits ds then Except.ok (digitsToNat ds : Int)
    else Except.error ("invalid literal for int() with base 10: " ++ s)

/-- Python `int(x)` where `x` is `self.headers.get('Content-Length')`:
`int(None)` raises `TypeError`. -/
def pyInt : Option String → Except String Int
  | none =>
    Except.error
      "int() argument must be a string, a bytes-like object or a real number, not NoneType"
  | some s => pyIntOfString s

/-- `self.rfile.read(n)` against a request whose full body is `body`. -/
def pyRead (body : String) (n : Int) : String :=
  if n < 0 then body else ⟨body.data.take n.toNat⟩

/-- One pass of Python `str.replace` over a character list.  The fuel is
always instantiated with the length of the list, which suffices because
every step consumes at least one character (the patterns used by the
handler are nonempty). -/
def pyReplaceAux (pat rep : List Char) : Nat → List Char → List Char
  | _, [] => []
  | 0, l => l
  | fuel + 1, c :: rest =>
    if pat.isPrefixOf (c :: rest) then
      rep ++ pyReplaceAux pat rep fuel (rest.drop (pat.length - 1))
    else
      c :: pyReplaceAux pat rep fuel rest

/-- Python `s.replace(pat, rep)` for the nonempty patterns used here. -/
def pyReplace (s pat rep : String) : String :=
  ⟨pyReplaceAux pat.data rep.data s.data.length s.data⟩

/-- `script_filename = f"manim_script_{uuid.uuid4()}.py"`. -/
def scriptFilename (u : String) : String := "manim_script_" ++ u ++ ".py"

/-- The fixed dependency-install command of step 3. -/
def installCommand : String := "pip install manim && manim-latex-downloader"

/-- The rendering command of step 5. -/
def renderCommand (fname : String) : String :=
  "manim -pql /home/daytona/" ++ fname ++ " EquationExplanation"

/-- The upload destination of step 4. -/
def uploadPathOf (fname : String) : String := "/home/daytona/" ++ fname

/-- The artifact path of step 6, derived from the script filename and the
fixed 480p15 preset by `str.replace`. -/
def videoPath (fname : String) : String :=
  "/home/daytona/media/videos/" ++ pyReplace fname ".py" "" ++
    "/480p15/EquationExplanation.mp4"

/-- The prompt template of `generate_manim_script`. -/
def promptFor (latex expl : String) : String :=
  "\n    Create a Python script for Manim Community Edition that generates a video based on the following mathematical equation and explanations.\n\n    **Equation (LaTeX):**\n    " ++
    latex ++
    "\n\n    **Explanations:**\n    " ++
    expl ++
    "\n\n    **Instructions:**\n    1. The video should start by displaying the full equation.\n    2. Then, for each variable or term mentioned in the explanations, highlight it in the equation while displaying the corresponding explanation text on the screen.\n    3. The final scene should show the complete, non-highlighted equation again.\n    4. The script should define a single Manim scene named \x27EquationExplanation\x27.\n    5. Ensure the script is self-contained and ready to be executed by \x60manim\x60.\n    "

/-- `generate_manim_script` from route.py: one model call, then the code
fences are removed from the response text and the result is stripped. -/
def generate_manim_script (w : World) (latex expl : String) :
    List Event × Except String String :=
  let prompt := promptFor latex expl
  match w.modelResp prompt with
  | Except.error m => ([Event.modelCall prompt], Except.error m)
  | Except.ok t =>
    ([Event.modelCall prompt],
     Except.ok (pyStrip (pyReplace (pyReplace t "```python" "") "```" "")))

/-- The body of the `try` block of `handler.do_POST` in route.py: the
events performed, whether a sandbox was provisioned, and either the
downloaded video bytes or the message of the exception that was raised. -/
def tryBlock (w : World) (latex expl : String) :
    List Event × Bool × Except String (List Nat) :=
  match generate_manim_script w latex expl with
  | (gev, Except.error m) => (gev, false, Except.error m)
  | (gev, Except.ok script) =>
    let fname := scriptFilename w.uuid
    match w.createResult with
    | Except.error m => (gev ++ [Event.create false], false, Except.error m)
    | Except.ok _ =>
      let ev1 := gev ++ [Event.create true, Event.exec installCommand 300]
      match w.installResult with
      | Except.error m => (ev1, true, Except.error m)
      | Except.ok r =>
        if r.exit_code != 0 then
          (ev1, true, Except.error ("Failed to install Manim: " ++ r.result))
        else
          let ev2 := ev1 ++ [Event.upload (uploadPathOf fname) script]
          match w.uploadResult with
          | Except.error m => (ev2, true, Except.error m)
          | Except.ok _ =>
            let ev3 := ev2 ++ [Event.exec (renderCommand fname) 300]
            match w.renderResult with
            | Except.error m => (ev3, true, Except.error m)
            | Except.ok r2 =>
              if r2.exit_code != 0 then
                (ev3, true,
                 Except.error ("Manim rendering failed: " ++ r2.result))
              else
                let ev4 := ev3 ++ [Event.download (videoPath fname)]
                match w.downloadResult with
                | Except.error m => (ev4, true, Except.error m)
                | Except.ok vid => (ev4, true, Except.ok vid)

/-- The `except`/`finally` tail of `handler.do_POST`: send the response
(200 with the video on success, 500 with the exception message on
failure), then `daytona.remove(sandbox)` when a sandbox was provisioned.
An exception raised by the removal escapes `do_POST` uncaught. -/
def afterTry (removeRes : Except String Unit)
    (t : List Event × Bool × Except String (List Nat)) : List Event × Outcome :=
  let resp :=
    match t.2.2 with
    | Except.ok vid => Event.response 200 "video/mp4" (RespBody.bytes vid)
    | Except.error m =>
      Event.response 500 "application/json"
        (RespBody.jsonObj [("error", JOut.jstr m)])
  if t.2.1 then
    match removeRes with
    | Except.ok _ => (t.1 ++ [resp, Event.remove], Outcome.normal)
    | Except.error m => (t.1 ++ [resp, Event.remove], Outcome.uncaught m)
  else
    (t.1 ++ [resp], Outcome.normal)

/-- `handler.do_POST` from route.py, as a function of the JSON parser
`jl` (modelling `json.loads`), the external world, the environment
variables and the request.  Header parsing and JSON parsing happen
outside the `try` block, so their exceptions escape uncaught. -/
def route_do_POST (jl : String → Except String PyDict) (w : World) (env : Env)
    (req : Request) : List Event × Outcome :=
  match pyInt req.contentLengthHeader with
  | Except.error m => ([], Outcome.uncaught m)
  | Except.ok n =>
    match jl (pyRead req.body n) with
    | Except.error m => ([], Outcome.uncaught m)
    | Except.ok d =>
      let latex := pyGet d "latex"
      let expl := pyGet d "explanations"
      if !(truthyVal latex && truthyVal expl && truthyEnv env.daytonaApiKey &&
            truthyEnv env.geminiApiKey) then
        ([Event.response 400 "application/json"
            (RespBody.jsonObj
              [("error", JOut.jstr "Missing required data or API keys.")])],
         Outcome.normal)
      else
        afterTry w.removeResult (tryBlock w (pyStrVal latex) (pyStrVal expl))

/-- `_send_json` from index.py. -/
def indexJson (status : Nat) (fields : List (String × JOut)) : Event :=
  Event.response status "application/json; charset=utf-8"
    (RespBody.jsonObj fields)

/-- `raw_body = self.rfile.read(content_length) if content_length else b""`
from index.py. -/
def indexRaw (req : Request) (n : Int) : String :=
  if n != 0 then pyRead req.body n else ""

/-- `handler.do_POST` from index.py (the echo endpoint). -/
def index_do_POST (jl : String → Except String PyDict) (req : Request) :
    List Event × Outcome :=
  match pyIntOfString (req.contentLengthHeader.getD "0") with
  | Except.error m => ([], Outcome.uncaught m)
  | Except.ok n =>
    let raw := indexRaw req n
    if raw == "" then
      ([indexJson 400 [("error", JOut.jstr "Empty request body")]],
       Outcome.normal)
    else
      match jl raw with
      | Except.error _ =>
        ([indexJson 400 [("error", JOut.jstr "Invalid JSON payload")]],
         Outcome.normal)
      | Except.ok d =>
        match (pyGet d "expression").getD (PyVal.vstr "") with
        | PyVal.vstr s =>
          ([indexJson 200
              [("received", JOut.jstr s), ("length", JOut.jnat s.length)]],
           Outcome.normal)
        | PyVal.vnull =>
          ([], Outcome.uncaught "object of type NoneType has no len()")

/-- Recognizer for `daytona.remove` events. -/
def isRemoveEv : Event → Bool
  | Event.remove => true
  | _ => false

/-- Recognizer for successful `daytona.create` events. -/
def isCreateOkEv : Event → Bool
  | Event.create true => true
  | _ => false

/-- Recognizer for `daytona.create` events, successful or not. -/
def isCreateEv : Event → Bool
  | Event.create _ => true
  | _ => false

/-- Recognizer for model calls. -/
def isModelEv : Event → Bool
  | Event.modelCall _ => true
  | _ => false

/-- Recognizer for HTTP responses. -/
def isRespEv : Event → Bool
  | Event.response _ _ _ => true
  | _ => false

/-- How many times `daytona.remove` was invoked in a run. -/
def removeCalls (l : List Event) : Nat := l.countP isRemoveEv

/-- How many times `daytona.create` succeeded in a run. -/
def provisionOks (l : List Event) : Nat := l.countP isCreateOkEv

/-- How many times `daytona.create` was invoked in a run. -/
def provisionCalls (l : List Event) : Nat := l.countP isCreateEv

/-- How many times the generative model was invoked in a run. -/
def modelCalls (l : List Event) : Nat := l.countP isModelEv

/-- The HTTP responses sent during a run, in order. -/
def responsesOf (l : List Event) : List Event := l.filter isRespEv

/-- Modelled from the spec: the artifact path as §4.2/§8 describe it — the
script filename with its ".py" suffix removed, between the fixed media
directory and the fixed 480p15 preset segment. -/
def dropDotPySuffix (s : String) : String :=
  if (String.data ".py").isSuffixOf s.data then
    ⟨s.data.take (s.data.length - 3)⟩
  else s

/-- Modelled from the spec: the full artifact path of §4.2. -/
def specVideoPath (fname : String) : String :=
  "/home/daytona/media/videos/" ++ dropDotPySuffix fname ++
    "/480p15/EquationExplanation.mp4"

/-- The request body of the concrete scenario of spec §8. -/
def scenarioBody : String :=
  "\x7b\"latex\": \"E=mc^2\", \"explanations\": \"E is energy, m is mass, c is speed of light\"\x7d"

/-- A concrete model of `json.loads`, agreeing with the Python parser on
the inputs used below: the scenario body parses to its object, and every
other exercised input (in particular the empty string) is rejected the
way `json.loads` rejects it. -/
def jlMain : String → Except String PyDict := fun s =>
  if s == scenarioBody then
    Except.ok
      [("latex", PyVal.vstr "E=mc^2"),
       ("explanations", PyVal.vstr "E is energy, m is mass, c is speed of light")]
  else Except.error "Expecting value: line 1 column 1 (char 0)"

/-- A concrete model of `json.loads` for a body holding an empty object. -/
def jlEmptyObj : String → Except String PyDict := fun s =>
  if s == "\x7b\x7d" then Except.ok []
  else Except.error "Expecting value: line 1 column 1 (char 0)"

/-- A concrete model of `json.loads` for a body whose `latex` field is the
empty string. -/
def jlEmptyLatex : String → Except String PyDict := fun s =>
  if s == "\x7b\"latex\": \"\", \"explanations\": \"x\"\x7d" then
    Except.ok [("latex", PyVal.vstr ""), ("explanations", PyVal.vstr "x")]
  else Except.error "Expecting value: line 1 column 1 (char 0)"

/-- An environment with both credentials set. -/
def envOk : Env := { daytonaApiKey := some "dk", geminiApiKey := some "gk" }

/-- The scenario request of spec §8, with a correct Content-Length. -/
def reqScenario : Request :=
  { contentLengthHeader := some (toString scenarioBody.length),
    body := scenarioBody }

/-- A request with an empty body. -/
def reqEmpty : Request := { contentLengthHeader := some "0", body := "" }

/-- A request whose Content-Length header is absent. -/
def reqNoHeader : Request := { contentLengthHeader := none, body := "\x7b\x7d" }

/-- A request whose Content-Length header is not an integer. -/
def reqBadHeader : Request :=
  { contentLengthHeader := some "abc", body := "\x7b\x7d" }

/-- A request holding an empty JSON object. -/
def reqEmptyObj : Request := { contentLengthHeader := some "2", body := "\x7b\x7d" }

/-- A request whose `latex` field is present but empty. -/
def reqEmptyLatex : Request :=
  { contentLengthHeader := some "34",
    body := "\x7b\"latex\": \"\", \"explanations\": \"x\"\x7d" }

/-- A world in which every remote call succeeds. -/
def wOk : World :=
  { modelResp := fun _ => Except.ok "```python\nfrom manim import *\n```",
    createResult := Except.ok (),
    installResult := Except.ok { exit_code := 0, result := "" },
    uploadResult := Except.ok (),
    renderResult := Except.ok { exit_code := 0, result := "" },
    downloadResult := Except.ok [0, 1, 2],
    removeResult := Except.ok (),
    uuid := "0a1b-2c3d" }

/-- Like `wOk`, but `daytona.remove` raises. -/
def wBoom : World := { wOk with removeResult := Except.error "boom" }

/-- Like `wOk`, but the downloaded artifact is empty. -/
def wEmptyVid : World := { wOk with downloadResult := Except.ok [] }

/-- Like `wOk`, but the install command exits nonzero. -/
def wInstallFail : World :=
  { wOk with installResult := Except.ok { exit_code := 1, result := "pip exploded" } }

/-- Structural facts about one `try` block: it never removes the sandbox,
it calls the model exactly once, it reports a successful provisioning
exactly when its flag is set, it sends no response, every download it
performs uses the path derived from the script filename, and the flag is
set exactly when a successful create event occurred. -/
theorem tryBlock_facts (w : World) (latex expl : String) :
    removeCalls (tryBlock w latex expl).1 = 0 ∧
      modelCalls (tryBlock w latex expl).1 = 1 ∧
      provisionOks (tryBlock w latex expl).1 =
        (if (tryBlock w latex expl).2.1 then 1 else 0) ∧
      responsesOf (tryBlock w latex expl).1 = [] ∧
      (∀ p, Event.download p ∈ (tryBlock w latex expl).1 →
        p = videoPath (scriptFilename w.uuid)) ∧
      ((tryBlock w latex expl).2.1 = true ↔
        Event.create true ∈ (tryBlock w latex expl).1) := by
  unfold tryBlock generate_manim_script
  cases hm : w.modelResp (promptFor latex expl) with
  | error m =>
    simp [hm, removeCalls, modelCalls, provisionOks, responsesOf,
      isRemoveEv, isModelEv, isCreateOkEv, isRespEv]
  | ok t =>
    cases hc : w.createResult with
    | error m =>
      simp [hm, hc, removeCalls, modelCalls, provisionOks, responsesOf,
        isRemoveEv, isModelEv, isCreateOkEv, isRespEv]
    | ok u =>
      cases hi : w.installResult with
      | error m =>
        simp [hm, hc, hi, removeCalls, modelCalls, provisionOks, responsesOf,
          isRemoveEv, isModelEv, isCreateOkEv, isRespEv]
      | ok r =>
        rcases eq_or_ne r.exit_code 0 with hz | hz
        · cases hu : w.uploadResult with
          | error m =>
            simp [hm, hc, hi, hu, hz, removeCalls, modelCalls, provisionOks,
              responsesOf, isRemoveEv, isModelEv, isCreateOkEv, isRespEv]
          | ok v =>
            cases hr : w.renderResult with
            | error m =>
              simp [hm, hc, hi, hu, hr, hz, removeCalls, modelCalls,
                provisionOks, responsesOf, isRemoveEv, isModelEv, isCreateOkEv,
                isRespEv]
            | ok r2 =>
              rcases eq_or_ne r2.exit_code 0 with hz2 | hz2
              · cases hd : w.downloadResult with
                | error m =>
                  simp [hm, hc, hi, hu, hr, hd, hz, hz2, removeCalls,
                    modelCalls, provisionOks, responsesOf, isRemoveEv,
                    isModelEv, isCreateOkEv, isRespEv]
                | ok vid =>
                  simp [hm, hc, hi, hu, hr, hd, hz, hz2, removeCalls,
                    modelCalls, provisionOks, responsesOf, isRemoveEv,
                    isModelEv, isCreateOkEv, isRespEv]
              · simp [hm, hc, hi, hu, hr, hz, hz2, removeCalls, modelCalls,
                  provisionOks, responsesOf, isRemoveEv, isModelEv,
                  isCreateOkEv, isRespEv]
        · simp [hm, hc, hi, hz, removeCalls, modelCalls, provisionOks,
            responsesOf, isRemoveEv, isModelEv, isCreateOkEv, isRespEv]

/-- Structural facts about a whole run of the route handler: the sandbox
is removed at most once, it is removed exactly once precisely when a
provisioning call succeeded, the model is called at most once, and every
download uses the path derived from the script filename. -/
theorem route_facts (jl : String → Except String PyDict) (w : World)
    (env : Env) (req : Request) :
    removeCalls (route_do_POST jl w env req).1 ≤ 1 ∧
      (removeCalls (route_do_POST jl w env req).1 = 1 ↔
        Event.create true ∈ (route_do_POST jl w env req).1) ∧
      modelCalls (route_do_POST jl w env req).1 ≤ 1 ∧
      (∀ p, Event.download p ∈ (route_do_POST jl w env req).1 →
        p = videoPath (scriptFilename w.uuid)) := by
  unfold route_do_POST
  cases hI : pyInt req.contentLengthHeader with
  | error m => simp [hI, removeCalls, modelCalls, isRemoveEv, isModelEv]
  | ok n =>
    cases hJ : jl (pyRead req.body n) with
    | error m => simp [hI, hJ, removeCalls, modelCalls, isRemoveEv, isModelEv]
    | ok d =>
      by_cases hV :
          (truthyVal (pyGet d "latex") && truthyVal (pyGet d "explanations") &&
            truthyEnv env.daytonaApiKey && truthyEnv env.geminiApiKey) = true
      · obtain ⟨h1, h2, -, -, h5, h6⟩ :=
          tryBlock_facts w (pyStrVal (pyGet d "latex"))
            (pyStrVal (pyGet d "explanations"))
        rcases htb : tryBlock w (pyStrVal (pyGet d "latex"))
            (pyStrVal (pyGet d "explanations")) with ⟨ev, prov, res⟩
        rw [htb] at h1 h2 h5 h6
        simp only [removeCalls, modelCalls] at h1 h2 h5 h6
        unfold afterTry
        simp only [hI, hJ, hV, Bool.not_true, if_false, htb]
        cases res with
        | error m =>
          cases prov with
          | true =>
            simp only [iff_true_intro rfl, true_iff] at h6
            cases hrm : w.removeResult with
            | error mm =>
              simp [removeCalls, modelCalls, isRemoveEv, isModelEv,
                List.countP_append, h1, h2, h5, h6] <;> exact h5 <;> exact h5
            | ok uu =>
              simp [removeCalls, modelCalls, isRemoveEv, isModelEv,
                List.countP_append, h1, h2, h5, h6] <;> exact h5 <;> exact h5
          | false =>
            simp only [Bool.false_eq_true, false_iff] at h6
            simp [removeCalls, modelCalls, isRemoveEv, isModelEv,
              List.countP_append, h1, h2, h5, h6] <;> exact h5
        | ok vid =>
          cases prov with
          | true =>
            simp only [iff_true_intro rfl, true_iff] at h6
            cases hrm : w.removeResult with
            | error mm =>
              simp [removeCalls, modelCalls, isRemoveEv, isModelEv,
                List.countP_append, h1, h2, h5, h6] <;> exact h5 <;> exact h5
            | ok uu =>
              simp [removeCalls, modelCalls, isRemoveEv, isModelEv,
                List.countP_append, h1, h2, h5, h6] <;> exact h5 <;> exact h5
          | false =>
            simp only [Bool.false_eq_true, false_iff] at h6
            simp [removeCalls, modelCalls, isRemoveEv, isModelEv,
              List.countP_append, h1, h2, h5, h6] <;> exact h5
      · simp [hI, hJ, hV, removeCalls, modelCalls, isRemoveEv, isModelEv]

/-- C1: in every pipeline run of `POST /generate-video`, `daytona.remove`
is invoked at most once, and exactly once if and only if `daytona.create`
succeeded, regardless of which later stage failed. -/
theorem claim1_destroy_iff_provisioned (jl : String → Except String PyDict)
    (w : World) (env : Env) (req : Request) :
    removeCalls (route_do_POST jl w env req).1 ≤ 1 ∧
      (removeCalls (route_do_POST jl w env req).1 = 1 ↔
        Event.create true ∈ (route_do_POST jl w env req).1) :=
  ⟨(route_facts jl w env req).1, (route_facts jl w env req).2.1⟩

/-- C8: `generate_manim_script` calls the generative model exactly once
and returns the response text with the markdown fence markers removed by
the two replacements and the surrounding whitespace stripped; a whole run
of the handler never calls the model more than once. -/
theorem claim8_generate_once_and_fences_stripped :
    (∀ (w : World) (latex expl : String),
        modelCalls (generate_manim_script w latex expl).1 = 1 ∧
        (generate_manim_script w latex expl).1 =
          [Event.modelCall (promptFor latex expl)] ∧
        (∀ t, w.modelResp (promptFor latex expl) = Except.ok t →
          (generate_manim_script w latex expl).2 =
            Except.ok
              (pyStrip (pyReplace (pyReplace t "```python" "") "```" "")))) ∧
    (∀ (jl : String → Except String PyDict) (w : World) (env : Env)
        (req : Request),
      modelCalls (route_do_POST jl w env req).1 ≤ 1) := by
  constructor
  · intro w latex expl
    unfold generate_manim_script
    cases hm : w.modelResp (promptFor latex expl) with
    | error m => simp [hm, modelCalls, isModelEv]
    | ok t => simp [hm, modelCalls, isModelEv]
  · intro jl w env req
    exact (route_facts jl w env req).2.2.1

/-- Closed instance of C8 at a concrete world and request. -/
theorem claim8_witness :
    modelCalls (generate_manim_script wOk "E=mc^2" "c is light").1 = 1 ∧
    (generate_manim_script wOk "E=mc^2" "c is light").2 =
      Except.ok "from manim import *" :=
  ⟨(claim8_generate_once_and_fences_stripped.1 wOk "E=mc^2" "c is light").1,
   (claim8_generate_once_and_fences_stripped.1 wOk "E=mc^2" "c is light").2.2
     "```python\nfrom manim import *\n```" rfl⟩

/-- C9: a request whose Content-Length header is absent, or present but
not an integer literal, makes `do_POST` raise before any validation: no
response event is produced and the exception escapes uncaught. -/
theorem claim9_header_parse_uncaught (jl : String → Except String PyDict)
    (w : World) (env : Env) (req : Request) :
    (req.contentLengthHeader = none →
      route_do_POST jl w env req =
        ([], Outcome.uncaught
          "int() argument must be a string, a bytes-like object or a real number, not NoneType")) ∧
    (∀ s m, req.contentLengthHeader = some s →
      pyIntOfString s = Except.error m →
      route_do_POST jl w env req = ([], Outcome.uncaught m)) := by
  constructor
  · intro h
    unfold route_do_POST
    simp [h, pyInt]
  · intro s m hs hm
    unfold route_do_POST
    simp [hs, hm, pyInt]

/-- Closed instance of C9: an absent header and a non-integer header each
crash the handler with no response sent. -/
theorem claim9_witness :
    route_do_POST jlMain wOk envOk reqNoHeader =
      ([], Outcome.uncaught
        "int() argument must be a string, a bytes-like object or a real number, not NoneType") ∧
    route_do_POST jlMain wOk envOk reqBadHeader =
      ([], Outcome.uncaught "invalid literal for int() with base 10: abc") :=
  ⟨(claim9_header_parse_uncaught jlMain wOk envOk reqNoHeader).1 rfl,
   (claim9_header_parse_uncaught jlMain wOk envOk reqBadHeader).2 "abc"
     "invalid literal for int() with base 10: abc" rfl rfl⟩

/-- C4: when `latex` or `explanations` is missing from the parsed body, or
either credential is absent, the run replies 400 with a non-empty error
string and performs neither a model call nor a provisioning call. -/
theorem claim4_missing_data_rejected_early (jl : String → Except String PyDict)
    (w : World) (env : Env) (req : Request) (n : Int) (d : PyDict)
    (hI : pyInt req.contentLengthHeader = Except.ok n)
    (hJ : jl (pyRead req.body n) = Except.ok d)
    (hmiss : pyGet d "latex" = none ∨ pyGet d "explanations" = none ∨
      env.daytonaApiKey = none ∨ env.geminiApiKey = none) :
    route_do_POST jl w env req =
      ([Event.response 400 "application/json"
          (RespBody.jsonObj
            [("error", JOut.jstr "Missing required data or API keys.")])],
       Outcome.normal) ∧
    "Missing required data or API keys." ≠ "" ∧
    modelCalls (route_do_POST jl w env req).1 = 0 ∧
    provisionCalls (route_do_POST jl w env req).1 = 0 := by
  have hcond : (truthyVal (pyGet d "latex") &&
      truthyVal (pyGet d "explanations") && truthyEnv env.daytonaApiKey &&
      truthyEnv env.geminiApiKey) = false := by
    rcases hmiss with h | h | h | h <;> simp [h, truthyVal, truthyEnv]
  have hrun : route_do_POST jl w env req =
      ([Event.response 400 "application/json"
          (RespBody.jsonObj
            [("error", JOut.jstr "Missing required data or API keys.")])],
       Outcome.normal) := by
    unfold route_do_POST
    simp [hI, hJ, hcond]
  refine ⟨hrun, by simp, ?_, ?_⟩ <;>
    simp [hrun, modelCalls, provisionCalls, isModelEv, isCreateEv]

/-- Closed instance of C4: a parsed empty object with valid credentials is
rejected with the fixed 400 response and triggers no remote call. -/
theorem claim4_witness :
    route_do_POST jlEmptyObj wOk envOk reqEmptyObj =
      ([Event.response 400 "application/json"
          (RespBody.jsonObj
            [("error", JOut.jstr "Missing required data or API keys.")])],
       Outcome.normal) ∧
    "Missing required data or API keys." ≠ "" ∧
    modelCalls (route_do_POST jlEmptyObj wOk envOk reqEmptyObj).1 = 0 ∧
    provisionCalls (route_do_POST jlEmptyObj wOk envOk reqEmptyObj).1 = 0 :=
  claim4_missing_data_rejected_early jlEmptyObj wOk envOk reqEmptyObj 2 []
    rfl rfl (Or.inl rfl)

/-- C10: the 400 rejection is one truthiness test over the two fields and
the two credentials; a present-but-empty field is rejected with the same
fixed error string as a missing field or missing credential. -/
theorem claim10_single_truthiness_gate (jl : String → Except String PyDict)
    (w : World) (env : Env) (req : Request) (n : Int) (d : PyDict)
    (hI : pyInt req.contentLengthHeader = Except.ok n)
    (hJ : jl (pyRead req.body n) = Except.ok d)
    (hfail : (truthyVal (pyGet d "latex") &&
      truthyVal (pyGet d "explanations") && truthyEnv env.daytonaApiKey &&
      truthyEnv env.geminiApiKey) = false) :
    route_do_POST jl w env req =
      ([Event.response 400 "application/json"
          (RespBody.jsonObj
            [("error", JOut.jstr "Missing required data or API keys.")])],
       Outcome.normal) ∧
    truthyVal (some (PyVal.vstr "")) = false ∧
    truthyVal none = false ∧ truthyEnv none = false := by
  refine ⟨?_, rfl, rfl, rfl⟩
  unfold route_do_POST
  simp [hI, hJ, hfail]

/-- Closed instance of C10: a request whose `latex` field is the empty
string receives exactly the response of a missing field. -/
theorem claim10_witness :
    route_do_POST jlEmptyLatex wOk envOk reqEmptyLatex =
      ([Event.response 400 "application/json"
          (RespBody.jsonObj
            [("error", JOut.jstr "Missing required data or API keys.")])],
       Outcome.normal) ∧
    truthyVal (some (PyVal.vstr "")) = false ∧
    truthyVal none = false ∧ truthyEnv none = false :=
  claim10_single_truthiness_gate jlEmptyLatex wOk envOk reqEmptyLatex 34
    [("latex", PyVal.vstr ""), ("explanations", PyVal.vstr "x")] rfl rfl rfl

/-- C7: when provisioning succeeds but the install command exits nonzero,
the run stops before upload/render/download, replies 500 with the captured
output embedded in the error string, and removes the sandbox exactly once. -/
theorem claim7_install_failure_cleanup (jl : String → Except String PyDict)
    (w : World) (env : Env) (req : Request) (n : Int) (d : PyDict)
    (t : String) (r : ExecResult)
    (hI : pyInt req.contentLengthHeader = Except.ok n)
    (hJ : jl (pyRead req.body n) = Except.ok d)
    (hV : (truthyVal (pyGet d "latex") &&
      truthyVal (pyGet d "explanations") && truthyEnv env.daytonaApiKey &&
      truthyEnv env.geminiApiKey) = true)
    (hm : w.modelResp (promptFor (pyStrVal (pyGet d "latex"))
      (pyStrVal (pyGet d "explanations"))) = Except.ok t)
    (hc : w.createResult = Except.ok ())
    (hi : w.installResult = Except.ok r)
    (hnz : r.exit_code ≠ 0)
    (hrm : w.removeResult = Except.ok ()) :
    route_do_POST jl w env req =
      ([Event.modelCall (promptFor (pyStrVal (pyGet d "latex"))
          (pyStrVal (pyGet d "explanations"))),
        Event.create true,
        Event.exec installCommand 300,
        Event.response 500 "application/json"
          (RespBody.jsonObj
            [("error", JOut.jstr ("Failed to install Manim: " ++ r.result))]),
        Event.remove],
       Outcome.normal) ∧
    removeCalls (route_do_POST jl w env req).1 = 1 := by
  have hrun : route_do_POST jl w env req =
      ([Event.modelCall (promptFor (pyStrVal (pyGet d "latex"))
          (pyStrVal (pyGet d "explanations"))),
        Event.create true,
        Event.exec installCommand 300,
        Event.response 500 "application/json"
          (RespBody.jsonObj
            [("error", JOut.jstr ("Failed to install Manim: " ++ r.result))]),
        Event.remove],
       Outcome.normal) := by
    unfold route_do_POST tryBlock generate_manim_script afterTry
    simp [hI, hJ, hV, hm, hc, hi, hrm, bne_iff_ne, hnz]
  exact ⟨hrun, by simp [hrun, removeCalls, isRemoveEv]⟩

/-- Closed instance of C7: the install command fails with captured output
"pip exploded" and the run replies 500 embedding it, removing the sandbox
once. -/
theorem claim7_witness :
    route_do_POST jlMain wInstallFail envOk reqScenario =
      ([Event.modelCall (promptFor "E=mc^2"
          "E is energy, m is mass, c is speed of light"),
        Event.create true,
        Event.exec installCommand 300,
        Event.response 500 "application/json"
          (RespBody.jsonObj
            [("error", JOut.jstr "Failed to install Manim: pip exploded")]),
        Event.remove],
       Outcome.normal) ∧
    removeCalls (route_do_POST jlMain wInstallFail envOk reqScenario).1 = 1 :=
  claim7_install_failure_cleanup jlMain wInstallFail envOk reqScenario 82
    [("latex", PyVal.vstr "E=mc^2"),
     ("explanations", PyVal.vstr "E is energy, m is mass, c is speed of light")]
    "```python\nfrom manim import *\n```"
    { exit_code := 1, result := "pip exploded" }
    rfl rfl rfl rfl rfl rfl (by decide) rfl

/-- C5 as stated is false: a run in which every stage succeeds but the
downloaded artifact happens to be empty still replies 200 `video/mp4`
with an empty body — the handler never checks that the body is non-empty. -/
theorem claim5_counterexample :
    route_do_POST jlMain wEmptyVid envOk reqScenario =
      ([Event.modelCall (promptFor "E=mc^2"
          "E is energy, m is mass, c is speed of light"),
        Event.create true,
        Event.exec installCommand 300,
        Event.upload (uploadPathOf (scriptFilename "0a1b-2c3d"))
          "from manim import *",
        Event.exec (renderCommand (scriptFilename "0a1b-2c3d")) 300,
        Event.download (videoPath (scriptFilename "0a1b-2c3d")),
        Event.response 200 "video/mp4" (RespBody.bytes []),
        Event.remove],
       Outcome.normal) := by
  rfl

/-- C5 (amended): when every stage succeeds, the run replies 200
`video/mp4` with body exactly the downloaded bytes (hence non-empty
whenever the download step returns non-empty bytes), and the sandbox is
removed only after the download and the response. -/
theorem claim5_success_trace (jl : String → Except String PyDict)
    (w : World) (env : Env) (req : Request) (n : Int) (d : PyDict)
    (t : String) (r1 r2 : ExecResult) (vid : List Nat)
    (hI : pyInt req.contentLengthHeader = Except.ok n)
    (hJ : jl (pyRead req.body n) = Except.ok d)
    (hV : (truthyVal (pyGet d "latex") &&
      truthyVal (pyGet d "explanations") && truthyEnv env.daytonaApiKey &&
      truthyEnv env.geminiApiKey) = true)
    (hm : w.modelResp (promptFor (pyStrVal (pyGet d "latex"))
      (pyStrVal (pyGet d "explanations"))) = Except.ok t)
    (hc : w.createResult = Except.ok ())
    (hi : w.installResult = Except.ok r1) (hi0 : r1.exit_code = 0)
    (hu : w.uploadResult = Except.ok ())
    (hr : w.renderResult = Except.ok r2) (hr0 : r2.exit_code = 0)
    (hd : w.downloadResult = Except.ok vid)
    (hrm : w.removeResult = Except.ok ()) :
    route_do_POST jl w env req =
      ([Event.modelCall (promptFor (pyStrVal (pyGet d "latex"))
          (pyStrVal (pyGet d "explanations"))),
        Event.create true,
        Event.exec installCommand 300,
        Event.upload (uploadPathOf (scriptFilename w.uuid))
          (pyStrip (pyReplace (pyReplace t "```python" "") "```" "")),
        Event.exec (renderCommand (scriptFilename w.uuid)) 300,
        Event.download (videoPath (scriptFilename w.uuid)),
        Event.response 200 "video/mp4" (RespBody.bytes vid),
        Event.remove],
       Outcome.normal) := by
  unfold route_do_POST tryBlock generate_manim_script afterTry
  simp [hI, hJ, hV, hm, hc, hi, hi0, hu, hr, hr0, hd, hrm]

/-- Closed instance of the amended C5 at the concrete scenario of spec §8,
with a non-empty artifact delivered unchanged. -/
theorem claim5_witness :
    route_do_POST jlMain wOk envOk reqScenario =
      ([Event.modelCall (promptFor "E=mc^2"
          "E is energy, m is mass, c is speed of light"),
        Event.create true,
        Event.exec installCommand 300,
        Event.upload (uploadPathOf (scriptFilename "0a1b-2c3d"))
          "from manim import *",
        Event.exec (renderCommand (scriptFilename "0a1b-2c3d")) 300,
        Event.download (videoPath (scriptFilename "0a1b-2c3d")),
        Event.response 200 "video/mp4" (RespBody.bytes [0, 1, 2]),
        Event.remove],
       Outcome.normal) :=
  claim5_success_trace jlMain wOk envOk reqScenario 82
    [("latex", PyVal.vstr "E=mc^2"),
     ("explanations", PyVal.vstr "E is energy, m is mass, c is speed of light")]
    "```python\nfrom manim import *\n```"
    { exit_code := 0, result := "" } { exit_code := 0, result := "" } [0, 1, 2]
    rfl rfl rfl rfl rfl rfl rfl rfl rfl rfl rfl rfl

/-- The events of the response-and-cleanup tail do not depend on the
outcome of `daytona.remove`. -/
theorem afterTry_fst_indep (r1 r2 : Except String Unit)
    (t : List Event × Bool × Except String (List Nat)) :
    (afterTry r1 t).1 = (afterTry r2 t).1 := by
  unfold afterTry
  rcases t with ⟨ev, prov, res⟩
  cases prov <;> cases res <;> cases r1 <;> cases r2 <;> simp

/-- When a sandbox was provisioned and `daytona.remove` raises, the
exception escapes `do_POST`. -/
theorem afterTry_snd_error (m : String)
    (t : List Event × Bool × Except String (List Nat)) (h : t.2.1 = true) :
    (afterTry (Except.error m) t).2 = Outcome.uncaught m := by
  unfold afterTry
  rcases t with ⟨ev, prov, res⟩
  simp only at h
  subst h
  cases res <;> simp

/-- Membership of the successful-create event is unaffected by the
response-and-cleanup tail. -/
theorem afterTry_mem_create (r : Except String Unit)
    (t : List Event × Bool × Except String (List Nat)) :
    Event.create true ∈ (afterTry r t).1 ↔ Event.create true ∈ t.1 := by
  unfold afterTry
  rcases t with ⟨ev, prov, res⟩
  cases prov <;> cases res <;> cases r <;> simp

/-- C3 as stated is false: in a run whose every stage succeeded, a failure
of `daytona.remove` is not recovered locally — it escapes `do_POST`
uncaught instead of leaving a normal return. -/
theorem claim3_counterexample :
    (route_do_POST jlMain wBoom envOk reqScenario).2 = Outcome.uncaught "boom" ∧
    (route_do_POST jlMain wBoom envOk reqScenario).2 ≠ Outcome.normal := by
  have h1 : (route_do_POST jlMain wBoom envOk reqScenario).2 =
      Outcome.uncaught "boom" := rfl
  refine ⟨h1, ?_⟩
  rw [h1]
  intro h
  exact Outcome.noConfusion h

/-- C3 (amended): a `daytona.remove` failure leaves the already-sent
response events unchanged — the events of a run never depend on the
removal outcome — but the exception is not recovered: it escapes
`do_POST` uncaught whenever a sandbox had been provisioned. -/
theorem claim3_destroy_error_escapes (jl : String → Except String PyDict)
    (w : World) (env : Env) (req : Request) (r1 r2 : Except String Unit)
    (m : String) :
    (route_do_POST jl { w with removeResult := r1 } env req).1 =
      (route_do_POST jl { w with removeResult := r2 } env req).1 ∧
    (Event.create true ∈
        (route_do_POST jl { w with removeResult := Except.error m } env req).1 →
      (route_do_POST jl { w with removeResult := Except.error m } env req).2 =
        Outcome.uncaught m) := by
  constructor
  · unfold route_do_POST
    cases hI : pyInt req.contentLengthHeader with
    | error m' => simp [hI]
    | ok n =>
      cases hJ : jl (pyRead req.body n) with
      | error m' => simp [hI, hJ]
      | ok d =>
        by_cases hV : (truthyVal (pyGet d "latex") &&
            truthyVal (pyGet d "explanations") && truthyEnv env.daytonaApiKey &&
            truthyEnv env.geminiApiKey) = true
        · simp only [hI, hJ, hV, Bool.not_true, if_false]
          exact afterTry_fst_indep r1 r2
            (tryBlock w (pyStrVal (pyGet d "latex"))
              (pyStrVal (pyGet d "explanations")))
        · simp [hI, hJ, hV]
  · intro hmem
    unfold route_do_POST at hmem ⊢
    cases hI : pyInt req.contentLengthHeader with
    | error m' => simp [hI] at hmem
    | ok n =>
      simp only [hI] at hmem ⊢
      cases hJ : jl (pyRead req.body n) with
      | error m' => simp [hJ] at hmem
      | ok d =>
        simp only [hJ] at hmem ⊢
        by_cases hV : (truthyVal (pyGet d "latex") &&
            truthyVal (pyGet d "explanations") && truthyEnv env.daytonaApiKey &&
            truthyEnv env.geminiApiKey) = true
        · simp only [hV, Bool.not_true, Bool.false_eq_true, if_false]
            at hmem ⊢
          have h6 := (tryBlock_facts { w with removeResult := Except.error m }
            (pyStrVal (pyGet d "latex"))
            (pyStrVal (pyGet d "explanations"))).2.2.2.2.2
          have hprov := h6.mpr ((afterTry_mem_create _ _).mp hmem)
          exact afterTry_snd_error m _ hprov
        · simp [hV] at hmem

/-- Closed instance of the amended C3: with the scenario request, the
events are the same whether removal fails or succeeds, and the failure
escapes uncaught. -/
theorem claim3_witness :
    (route_do_POST jlMain { wOk with removeResult := Except.error "boom" }
        envOk reqScenario).1 =
      (route_do_POST jlMain { wOk with removeResult := Except.ok () }
        envOk reqScenario).1 ∧
    (route_do_POST jlMain { wOk with removeResult := Except.error "boom" }
        envOk reqScenario).2 = Outcome.uncaught "boom" :=
  ⟨(claim3_destroy_error_escapes jlMain wOk envOk reqScenario
      (Except.error "boom") (Except.ok ()) "boom").1,
   (claim3_destroy_error_escapes jlMain wOk envOk reqScenario
      (Except.error "boom") (Except.ok ()) "boom").2 (by decide)⟩

/-- C2 as stated is false for `POST /generate-video`: on an empty body the
route handler raises an uncaught `json.loads` exception and sends no
response at all, rather than a 400 with `Empty request body`. -/
theorem claim2_counterexample :
    route_do_POST jlMain wOk envOk reqEmpty =
      ([], Outcome.uncaught "Expecting value: line 1 column 1 (char 0)") ∧
    responsesOf (route_do_POST jlMain wOk envOk reqEmpty).1 = [] :=
  ⟨rfl, rfl⟩

/-- C2 (amended): the 400 responses `Empty request body` and
`Invalid JSON payload` are produced by the separate echo endpoint
(index.py) for empty and malformed bodies; the generate-video handler
itself raises uncaught on a body that fails to parse, sending nothing. -/
theorem claim2_body_errors (jl : String → Except String PyDict)
    (req : Request) (n : Int)
    (hI : pyIntOfString (req.contentLengthHeader.getD "0") = Except.ok n) :
    (indexRaw req n = "" →
      index_do_POST jl req =
        ([indexJson 400 [("error", JOut.jstr "Empty request body")]],
         Outcome.normal)) ∧
    (∀ m, indexRaw req n ≠ "" → jl (indexRaw req n) = Except.error m →
      index_do_POST jl req =
        ([indexJson 400 [("error", JOut.jstr "Invalid JSON payload")]],
         Outcome.normal)) ∧
    (∀ (w : World) (env : Env) (req2 : Request) (n2 : Int) (m : String),
      pyInt req2.contentLengthHeader = Except.ok n2 →
      jl (pyRead req2.body n2) = Except.error m →
      route_do_POST jl w env req2 = ([], Outcome.uncaught m)) := by
  refine ⟨?_, ?_, ?_⟩
  · intro h
    unfold index_do_POST
    simp [hI, h]
  · intro m hne hm
    unfold index_do_POST
    simp [hI, hne, hm]
  · intro w env req2 n2 m h1 h2
    unfold route_do_POST
    simp [h1, h2]

/-- Closed instance of the amended C2: the echo endpoint answers 400 for
an empty body and for malformed JSON, while the route handler crashes
uncaught on the same malformed body. -/
theorem claim2_witness :
    index_do_POST jlMain reqEmpty =
      ([indexJson 400 [("error", JOut.jstr "Empty request body")]],
       Outcome.normal) ∧
    index_do_POST jlMain reqEmptyObj =
      ([indexJson 400 [("error", JOut.jstr "Invalid JSON payload")]],
       Outcome.normal) ∧
    route_do_POST jlMain wOk envOk reqEmptyObj =
      ([], Outcome.uncaught "Expecting value: line 1 column 1 (char 0)") :=
  ⟨(claim2_body_errors jlMain reqEmpty 0 rfl).1 rfl,
   (claim2_body_errors jlMain reqEmptyObj 2 rfl).2.1
     "Expecting value: line 1 column 1 (char 0)" (by decide) rfl,
   (claim2_body_errors jlMain reqEmptyObj 2 rfl).2.2 wOk envOk reqEmptyObj 2
     "Expecting value: line 1 column 1 (char 0)" rfl rfl⟩

/-- Replacing ".py" in a list that has no dot before its final ".py"
removes exactly that suffix. -/
theorem pyReplaceAux_drop_suffix (cs : List Char) :
    ∀ fuel, cs.length + 3 ≤ fuel → '.' ∉ cs →
      pyReplaceAux ['.', 'p', 'y'] [] fuel (cs ++ ['.', 'p', 'y']) = cs := by
  induction cs with
  | nil =>
    intro fuel hf h
    cases fuel with
    | zero => simp at hf
    | succ f => simp [pyReplaceAux, List.isPrefixOf]
  | cons c cs ih =>
    intro fuel hf h
    simp only [List.mem_cons, not_or] at h
    obtain ⟨hne, hmem⟩ := h
    cases fuel with
    | zero => simp at hf
    | succ f =>
      have hcc : ('.' == c) = false := by
        simp only [beq_eq_false_iff_ne, ne_eq]
        exact fun hcontra => hne hcontra
      have hstep : pyReplaceAux ['.', 'p', 'y'] [] (f + 1)
          (c :: (cs ++ ['.', 'p', 'y'])) =
          c :: pyReplaceAux ['.', 'p', 'y'] [] f (cs ++ ['.', 'p', 'y']) := by
        simp [pyReplaceAux, List.isPrefixOf, hcc]
      rw [List.cons_append, hstep,
        ih f (by simp only [List.length_cons] at hf; omega) hmem]

/-- On the generated script filename, `str.replace(".py", "")` strips the
suffix, because a uuid4 string never contains a dot. -/
theorem pyReplace_scriptFilename (u : String) (h : '.' ∉ u.data) :
    pyReplace (scriptFilename u) ".py" "" = "manim_script_" ++ u := by
  apply String.ext
  have hdata : (scriptFilename u).data =
      ("manim_script_".data ++ u.data) ++ ['.', 'p', 'y'] := by
    simp [scriptFilename, String.data_append]
  have hmem : '.' ∉ "manim_script_".data ++ u.data := by
    simp only [List.mem_append, not_or]
    exact ⟨by decide, h⟩
  show pyReplaceAux ".py".data "".data (scriptFilename u).data.length
      (scriptFilename u).data = ("manim_script_" ++ u).data
  rw [hdata]
  rw [pyReplaceAux_drop_suffix _ _ (by simp) hmem]
  simp [String.data_append]

/-- The spec-side suffix removal also yields the filename without ".py". -/
theorem dropDotPySuffix_scriptFilename (u : String) :
    dropDotPySuffix (scriptFilename u) = "manim_script_" ++ u := by
  unfold dropDotPySuffix
  have hdata : (scriptFilename u).data =
      ("manim_script_".data ++ u.data) ++ ['.', 'p', 'y'] := by
    simp [scriptFilename, String.data_append]
  have hsuf : (String.data ".py").isSuffixOf (scriptFilename u).data = true := by
    rw [hdata]
    exact List.isSuffixOf_iff_suffix.mpr ⟨_, rfl⟩
  rw [if_pos hsuf]
  apply String.ext
  show (scriptFilename u).data.take ((scriptFilename u).data.length - 3) =
    ("manim_script_" ++ u).data
  rw [hdata]
  have hlen : (("manim_script_".data ++ u.data) ++ ['.', 'p', 'y']).length - 3 =
      ("manim_script_".data ++ u.data).length := by
    simp
  rw [hlen, List.take_left]
  simp [String.data_append]

/-- C6: the artifact download path equals the fixed directory, the script
filename with its ".py" suffix removed, and the fixed 480p15 preset; it
is a function of the script filename alone, so every download event of a
run uses it — it is never taken from the rendering step's result. -/
theorem claim6_artifact_path_derivation (u : String) (h : '.' ∉ u.data) :
    videoPath (scriptFilename u) =
      "/home/daytona/media/videos/manim_script_" ++ u ++
        "/480p15/EquationExplanation.mp4" ∧
    videoPath (scriptFilename u) = specVideoPath (scriptFilename u) ∧
    (∀ (jl : String → Except String PyDict) (w : World) (env : Env)
        (req : Request) (p : String),
      Event.download p ∈ (route_do_POST jl w env req).1 →
      p = videoPath (scriptFilename w.uuid)) := by
  refine ⟨?_, ?_, ?_⟩
  · unfold videoPath
    rw [pyReplace_scriptFilename u h]
    apply String.ext
    simp [String.data_append]
  · unfold videoPath specVideoPath
    rw [pyReplace_scriptFilename u h, dropDotPySuffix_scriptFilename u]
  · intro jl w env req p hp
    exact (route_facts jl w env req).2.2.2 p hp

/-- Closed instance of C6 at a concrete uuid string. -/
theorem claim6_witness :
    ('.' ∉ "0a1b-2c3d".data) ∧
    videoPath (scriptFilename "0a1b-2c3d") =
      "/home/daytona/media/videos/manim_script_" ++ "0a1b-2c3d" ++
        "/480p15/EquationExplanation.mp4" :=
  ⟨by decide, (claim6_artifact_path_derivation "0a1b-2c3d" (by decide)).1⟩
